import Mathlib

/-!
Shallow embedding of the embedded static-file HTTP server of DivoomDND
(src/server.py): the path-confinement routine of
`SecureHTTPRequestHandler`, the `ServerThread` lifecycle
(`__init__` / `run` / `stop` / `wait_for_startup` / `url`), and the
`ServerWorker` Qt facade.  Interaction with the operating system
(filesystem lookups, path canonicalization, socket binding, thread
liveness) is passed in as explicit inputs; side effects (socket calls,
log lines, Qt signal emissions) are returned as explicit traces.
-/

namespace DivoomDND

/-- Outcome of `Path(...).resolve()` applied to the output of
`super().translate_path(path)`: either the canonical filesystem path
(which, through symlinks inside the root, may point anywhere), or one of
the exception classes caught at src/server.py line 36. -/
inductive ResolveResult where
  | ok (p : String)
  | oserror (msg : String)
  | valueerror (msg : String)
deriving DecidableEq, Repr

/-- Log records produced by `translate_path` (logger.warning at line 33,
logger.error at line 37). -/
inductive LogEvent where
  | traversalWarning (rawPath : String)
  | translationError (rawPath : String)
deriving DecidableEq, Repr

/-- Model of Python `str.startswith`: character-level prefix test. -/
def strStartsWith (s pre : String) : Bool :=
  pre.data.isPrefixOf s.data

/-- Embedding of `SecureHTTPRequestHandler.translate_path`
(src/server.py lines 25-38).  `base_directory` is the canonical root
string (`str(self.base_directory)`); `resolveRes` is the outcome of
`Path(super().translate_path(path)).resolve()`.  Returns the path the
handler will serve together with the log records it emits; the function
is total, so a canonicalization failure never escapes to the caller. -/
def translate_path (base_directory : String) (rawPath : String)
    (resolveRes : ResolveResult) : String × List LogEvent :=
  match resolveRes with
  | ResolveResult.ok full_path =>
      if strStartsWith full_path base_directory then (full_path, [])
      else (base_directory, [LogEvent.traversalWarning rawPath])
  | ResolveResult.oserror _ => (base_directory, [LogEvent.translationError rawPath])
  | ResolveResult.valueerror _ => (base_directory, [LogEvent.translationError rawPath])

/-- Exceptions raised or stored by `ServerThread`:
`FileNotFoundError` / `NotADirectoryError` from `__init__`,
the bind-time `OSError` caught in `run`, and the `TimeoutError`
raised by `wait_for_startup`. -/
inductive PyError where
  | fileNotFound (msg : String)
  | notADirectory (msg : String)
  | bindError (msg : String)
  | timeoutError (msg : String)
deriving DecidableEq, Repr

/-- String rendering of an exception, as `str(e)` would produce. -/
def PyError.message : PyError → String
  | PyError.fileNotFound m => m
  | PyError.notADirectory m => m
  | PyError.bindError m => m
  | PyError.timeoutError m => m

/-- The spec's `InvalidDirectory` taxonomy class: the two
construction-time exceptions of `ServerThread.__init__`. -/
def PyError.isInvalidDirectory : PyError → Bool
  | PyError.fileNotFound _ => true
  | PyError.notADirectory _ => true
  | _ => false

/-- Abstract filesystem supplying `Path(...).resolve()`, `.exists()` and
`.is_dir()` answers for `ServerThread.__init__`. -/
structure FileSystem where
  resolvePath : String → String
  pathExists : String → Bool
  pathIsDir : String → Bool

/-- Observable operations performed by the server lifecycle methods:
socket system calls, the accept loop, thread join, and log lines. -/
inductive Op where
  | setsockoptReuse
  | bindSocket (addr : String) (port : Nat)
  | listenSocket
  | serveForever
  | shutdownServer
  | serverClose
  | joinThread (timeout : Nat)
  | logInfo (msg : String)
  | logWarning (msg : String)
  | logError (msg : String)
deriving DecidableEq, Repr

/-- Whether an operation touches the listening socket. -/
def Op.isSocketOp : Op → Bool
  | Op.setsockoptReuse => true
  | Op.bindSocket _ _ => true
  | Op.listenSocket => true
  | Op.serveForever => true
  | Op.shutdownServer => true
  | Op.serverClose => true
  | _ => false

/-- State of a constructed `http.server.HTTPServer`: its
`server_address` after binding (host, actually bound port). -/
structure HTTPServerState where
  server_address : String × Nat
deriving DecidableEq, Repr

/-- State of a `ServerThread` object (src/server.py lines 52-61):
configuration fields plus the mutable `httpd`, `_server_started`
event flag, stored `error`, and `_stop_event` flag. -/
structure ServerThread where
  directory : String
  port : Nat
  bind_address : String
  httpd : Option HTTPServerState
  server_started : Bool
  error : Option PyError
  stop_event : Bool
deriving DecidableEq, Repr

/-- Embedding of `ServerThread.__init__` (src/server.py lines 52-67):
resolves the requested directory and validates that it exists and is a
directory, raising `FileNotFoundError` / `NotADirectoryError`
otherwise (the exception propagates synchronously to the caller). -/
def ServerThread.init (fs : FileSystem) (directory : String) (port : Nat)
    (bind_address : String) : Except PyError ServerThread :=
  let dir := fs.resolvePath directory
  if fs.pathExists dir = false then
    Except.error (PyError.fileNotFound ("Directory does not exist: " ++ dir))
  else if fs.pathIsDir dir = false then
    Except.error (PyError.notADirectory ("Path is not a directory: " ++ dir))
  else
    Except.ok { directory := dir, port := port, bind_address := bind_address,
                httpd := none, server_started := false, error := none,
                stop_event := false }

/-- Trace of observable operations performed by `ServerThread.__init__`
(src/server.py lines 52-67): the constructor only assigns fields and
queries the filesystem, so it executes no `Op` at all — in particular
no socket operation. -/
def ServerThread.initOps (_fs : FileSystem) (_directory : String) (_port : Nat)
    (_bind_address : String) : List Op :=
  []

/-- Embedding of `ServerThread.run` (src/server.py lines 69-91).
`bindOutcome` is the operating system's answer to the bind performed
inside the `HTTPServer` constructor; `osAssigned` is the port the OS
assigns when the requested port is 0 (ephemeral).  Per CPython's
http.server, `HTTPServer` sets `allow_reuse_address = 1`, so its
constructor issues `setsockopt(SO_REUSEADDR, 1)` before `bind` and then
`listen`; line 79 of the source then sets the same option again.  On
bind success the method records `httpd`, logs, signals the
`_server_started` event and enters `serve_forever`; on failure it stores
the exception in `self.error`, logs it, still signals the event, and
returns without serving. -/
def ServerThread.run (st : ServerThread) (bindOutcome : Except String Unit)
    (osAssigned : Nat) : ServerThread × List Op :=
  match bindOutcome with
  | Except.ok _ =>
      let actualPort := if st.port = 0 then osAssigned else st.port
      ({ st with httpd := some { server_address := (st.bind_address, actualPort) },
                 server_started := true },
       [Op.setsockoptReuse, Op.bindSocket st.bind_address st.port, Op.listenSocket,
        Op.setsockoptReuse,
        Op.logInfo ("Server started on " ++ st.bind_address ++ ":" ++ toString actualPort
          ++ ", serving " ++ st.directory),
        Op.serveForever])
  | Except.error m =>
      ({ st with error := some (PyError.bindError m), server_started := true },
       [Op.setsockoptReuse, Op.bindSocket st.bind_address st.port,
        Op.logError ("Server error: " ++ m)])

/-- Embedding of `ServerThread.stop` (src/server.py lines 93-114).
`alive` is `self.is_alive()` at entry; `aliveAfterJoin` is
`self.is_alive()` after `join(timeout)` returned, so the thread finished
within the timeout exactly when `aliveAfterJoin = false`.  Returns the
updated state, the boolean result, and the trace of operations. -/
def ServerThread.stop (st : ServerThread) (timeout : Nat)
    (alive : Bool) (aliveAfterJoin : Bool) : (ServerThread × Bool) × List Op :=
  if alive = false then ((st, true), [])
  else
    let st1 := { st with stop_event := true }
    let shutdownOps : List Op :=
      match st1.httpd with
      | some _ => [Op.shutdownServer, Op.serverClose]
      | none => []
    let ops := Op.logInfo "Shutting down server..." :: shutdownOps
      ++ [Op.joinThread timeout]
    if aliveAfterJoin then
      ((st1, false), ops ++ [Op.logWarning ("Server thread did not stop within "
        ++ toString timeout ++ " seconds")])
    else
      ((st1, true), ops ++ [Op.logInfo "Server stopped successfully"])

/-- Embedding of `ServerThread.wait_for_startup` (src/server.py lines
116-123).  `self._server_started.wait(timeout)` returns true when the
event is already set (`st.server_started`) or becomes set during the
wait (`setWithinTimeout`); then a stored error is re-raised, otherwise
the call returns `True`.  If the wait times out, a `TimeoutError` is
raised. -/
def ServerThread.wait_for_startup (st : ServerThread) (setWithinTimeout : Bool)
    (timeout : Nat) : Except PyError Bool :=
  if st.server_started || setWithinTimeout then
    match st.error with
    | some e => Except.error e
    | none => Except.ok true
  else
    Except.error (PyError.timeoutError ("Server did not start within "
      ++ toString timeout ++ " seconds"))

/-- Embedding of the `ServerThread.url` property (src/server.py lines
125-134): `None` before `httpd` exists, otherwise the URL built from
`server_address`, rendering `localhost` for `127.0.0.1` and `0.0.0.0`. -/
def ServerThread.url (st : ServerThread) : Option String :=
  match st.httpd with
  | some h =>
      let host := if h.server_address.1 = "127.0.0.1" ∨ h.server_address.1 = "0.0.0.0"
        then "localhost" else h.server_address.1
      some ("http://" ++ host ++ ":" ++ toString h.server_address.2)
  | none => none

/-- Operating-system rule for TCP bind: a port whose previous listener
just closed lingers in TIME_WAIT and refuses a plain bind, but the bind
succeeds when SO_REUSEADDR was set on the socket beforehand. -/
def bindSucceeds (portLingering : Bool) (reuseSetFirst : Bool) : Bool :=
  !portLingering || reuseSetFirst

/-- Whether a trace sets SO_REUSEADDR before its first bind call. -/
def reuseSetBeforeBind : List Op → Bool
  | [] => false
  | Op.setsockoptReuse :: _ => true
  | Op.bindSocket _ _ :: _ => false
  | _ :: rest => reuseSetBeforeBind rest

/-- Qt signals emitted by `ServerWorker` (src/server.py lines 139-141). -/
inductive Notification where
  | server_started (url : String)
  | server_stopped
  | server_error (msg : String)
deriving DecidableEq, Repr

/-- State of a `ServerWorker` (src/server.py lines 143-148). -/
structure ServerWorker where
  server : Option ServerThread
  operation : Option String
  directory : Option String
  port : Option Nat
deriving DecidableEq, Repr

/-- Embedding of `ServerWorker.start_server` (src/server.py lines
150-155): queues a start operation with its payload. -/
def ServerWorker.start_server (w : ServerWorker) (directory : String)
    (port : Nat) : ServerWorker :=
  { w with operation := some "start", directory := some directory, port := some port }

/-- Embedding of `ServerWorker.stop_server` (src/server.py lines
157-160): queues a stop operation. -/
def ServerWorker.stop_server (w : ServerWorker) : ServerWorker :=
  { w with operation := some "stop" }

/-- Embedding of the `operation == "start"` branch of `ServerWorker.run`
(src/server.py lines 164-172), with the payload `d`, `p` stored by
`start_server` passed explicitly.  It constructs a `ServerThread`
(bind address defaulting to `127.0.0.1`), starts it, and calls
`wait_for_startup` with the default 10-second timeout; `runCompleted`
says whether the spawned thread reached its startup signal within that
wait (its effect on the shared state is then visible, per `bindOutcome`
and `osAssigned`).  Returns the updated worker and the emitted signals:
`server_error(str(e))` when construction or the wait raises, else
`server_started(f"http://localhost:\x7bself.port\x7d")`. -/
def ServerWorker.runStartOp (w : ServerWorker) (fs : FileSystem)
    (d : String) (p : Nat) (bindOutcome : Except String Unit)
    (osAssigned : Nat) (runCompleted : Bool) :
    ServerWorker × List Notification :=
  match ServerThread.init fs d p "127.0.0.1" with
  | Except.error e => (w, [Notification.server_error e.message])
  | Except.ok st0 =>
      let stSeen := if runCompleted then (st0.run bindOutcome osAssigned).1 else st0
      let w1 := { w with server := some stSeen }
      match stSeen.wait_for_startup false 10 with
      | Except.error e => (w1, [Notification.server_error e.message])
      | Except.ok _ =>
          (w1, [Notification.server_started ("http://localhost:" ++ toString p)])

/-- Embedding of the `operation == "stop"` branch of `ServerWorker.run`
(src/server.py lines 174-181): if a server is held, stop it (default
timeout 5, with `alive` / `aliveAfterJoin` the thread-liveness inputs of
`ServerThread.stop`) and release it; in every case emit
`server_stopped`. -/
def ServerWorker.runStopOp (w : ServerWorker) (alive : Bool)
    (aliveAfterJoin : Bool) : ServerWorker × List Notification :=
  match w.server with
  | some st =>
      let _ := st.stop 5 alive aliveAfterJoin
      ({ w with server := none }, [Notification.server_stopped])
  | none => (w, [Notification.server_stopped])

/-- Filesystem in which every path exists and is a directory, with
canonicalization the identity. -/
def fsAll : FileSystem :=
  { resolvePath := fun d => d, pathExists := fun _ => true, pathIsDir := fun _ => true }

/-- Sample constructed thread state bound to 127.0.0.1:8000. -/
def sampleThread : ServerThread :=
  { directory := "/srv/www", port := 8000, bind_address := "127.0.0.1",
    httpd := none, server_started := false, error := none, stop_event := false }

/-- Sample thread state with a non-loopback bind address. -/
def sampleThreadLan : ServerThread :=
  { directory := "/srv/www", port := 9000, bind_address := "192.168.1.5",
    httpd := none, server_started := false, error := none, stop_event := false }

/-- Fresh worker as constructed by `ServerWorker.__init__`. -/
def freshWorker : ServerWorker :=
  { server := none, operation := none, directory := none, port := none }

/-- Filesystem in which no path exists. -/
def fsNone : FileSystem :=
  { resolvePath := fun d => d, pathExists := fun _ => false, pathIsDir := fun _ => false }

/-- Thread state of a running, bound server on 127.0.0.1:8000. -/
def runningThread : ServerThread :=
  { directory := "/srv/www", port := 8000, bind_address := "127.0.0.1",
    httpd := some { server_address := ("127.0.0.1", 8000) },
    server_started := true, error := none, stop_event := false }

/-- Inversion for a successful construction: the returned state has the
resolved directory, the requested port and bind address, no `httpd`, an
unset startup event, no stored error and an unset stop flag. -/
theorem ServerThread.init_ok (fs : FileSystem) (d : String) (p : Nat) (a : String)
    (st0 : ServerThread) (h : ServerThread.init fs d p a = Except.ok st0) :
    st0 = { directory := fs.resolvePath d, port := p, bind_address := a,
            httpd := none, server_started := false, error := none,
            stop_event := false } := by
  unfold ServerThread.init at h
  dsimp only at h
  split at h
  · exact absurd h (by simp)
  · split at h
    · exact absurd h (by simp)
    · exact (Except.ok.inj h).symm

/-- C1: the code judges confinement with a bare `str.startswith` on the
canonical root, not with "root plus a path separator (or root itself)".
Evaluation at the failing input: with canonical root `/srv/www` and a
request `/link` whose canonicalization (through a symlink inside the
root) is `/srv/www-evil`, `translate_path` returns `/srv/www-evil` with
no traversal warning, although that path neither equals the root nor
begins with the root followed by a path separator — so the sibling
directory outside the root is served. -/
theorem C1_prefix_escape_eval :
    (translate_path "/srv/www" "/link" (ResolveResult.ok "/srv/www-evil")).1
      = "/srv/www-evil" ∧
    (translate_path "/srv/www" "/link" (ResolveResult.ok "/srv/www-evil")).2
      = [] ∧
    (("/srv/www-evil" : String) == "/srv/www") = false ∧
    strStartsWith "/srv/www-evil" ("/srv/www" ++ "/") = false := by
  decide

/-- C2: when canonicalization raises `OSError` or `ValueError`,
`translate_path` returns the root directory and logs a
path-translation error; since the embedded function is total, the
failure never reaches the caller and never terminates the server. -/
theorem C2_translation_error_fallback (base rawPath m : String) :
    translate_path base rawPath (ResolveResult.oserror m)
      = (base, [LogEvent.translationError rawPath]) ∧
    translate_path base rawPath (ResolveResult.valueerror m)
      = (base, [LogEvent.translationError rawPath]) :=
  ⟨rfl, rfl⟩

/-- C3: if `run` recorded a bind error, `wait_for_startup` propagates
exactly that recorded error for every timeout and every event-wait
outcome (in particular when called well before the timeout elapses);
if instead startup has not completed and the event is not set within
the wait, it fails with the distinct `TimeoutError`. -/
theorem C3_wait_propagates_recorded_error :
    (∀ (st : ServerThread) (m : String) (osAssigned : Nat) (b : Bool) (t : Nat),
      ((st.run (Except.error m) osAssigned).1).wait_for_startup b t
        = Except.error (PyError.bindError m)) ∧
    (∀ (st : ServerThread) (t : Nat), st.server_started = false →
      st.wait_for_startup false t
        = Except.error (PyError.timeoutError ("Server did not start within "
            ++ toString t ++ " seconds"))) := by
  constructor
  · intro st m osAssigned b t
    simp [ServerThread.run, ServerThread.wait_for_startup]
  · intro st t h
    simp [ServerThread.wait_for_startup, h]

/-- Witness for C3 at a concrete runtime: a bind failure recorded by
`run` is propagated, and an unstarted runtime whose wait times out gets
the timeout error. -/
theorem C3_wait_witness :
    ((sampleThread.run (Except.error "[Errno 98] Address already in use") 0).1).wait_for_startup false 3
      = Except.error (PyError.bindError "[Errno 98] Address already in use") ∧
    sampleThread.wait_for_startup false 3
      = Except.error (PyError.timeoutError ("Server did not start within "
          ++ toString 3 ++ " seconds")) :=
  ⟨C3_wait_propagates_recorded_error.1 sampleThread
      "[Errno 98] Address already in use" 0 false 3,
   C3_wait_propagates_recorded_error.2 sampleThread 3 rfl⟩

/-- C4: when the bind fails, `run` stores the error in `self.error`,
still sets the `_server_started` event (so a waiter is not blocked
indefinitely), and its trace never reaches `serve_forever`. -/
theorem C4_bind_failure_signals_and_returns (st : ServerThread) (m : String)
    (osAssigned : Nat) :
    ((st.run (Except.error m) osAssigned).1).error = some (PyError.bindError m) ∧
    ((st.run (Except.error m) osAssigned).1).server_started = true ∧
    ((st.run (Except.error m) osAssigned).2).contains Op.serveForever = false := by
  refine ⟨rfl, rfl, ?_⟩
  simp [ServerThread.run, List.contains]

/-- C5: construction validates the root synchronously — it fails exactly
when the resolved directory does not both exist and be a directory, the
failure is one of the spec's `InvalidDirectory` exceptions, and the
constructor's operation trace contains no socket operation. -/
theorem C5_init_validates_directory (fs : FileSystem) (d : String) (p : Nat)
    (a : String) :
    ((ServerThread.initOps fs d p a).all (fun op => !op.isSocketOp)) = true ∧
    (∀ e, ServerThread.init fs d p a = Except.error e →
      e.isInvalidDirectory = true ∧
      (fs.pathExists (fs.resolvePath d) && fs.pathIsDir (fs.resolvePath d)) = false) ∧
    ((fs.pathExists (fs.resolvePath d) && fs.pathIsDir (fs.resolvePath d)) = true →
      ∃ st, ServerThread.init fs d p a = Except.ok st) := by
  refine ⟨rfl, ?_, ?_⟩
  · intro e h
    unfold ServerThread.init at h
    dsimp only at h
    split at h
    · rename_i hex
      exact ⟨(Except.error.inj h) ▸ rfl, by simp [hex]⟩
    · split at h
      · rename_i hdir
        exact ⟨(Except.error.inj h) ▸ rfl, by simp [hdir]⟩
      · exact absurd h (by simp)
  · intro h
    simp only [Bool.and_eq_true] at h
    refine ⟨{ directory := fs.resolvePath d, port := p, bind_address := a,
              httpd := none, server_started := false, error := none,
              stop_event := false }, ?_⟩
    unfold ServerThread.init
    dsimp only
    rw [if_neg (by simp [h.1]), if_neg (by simp [h.2])]

/-- Witness for C5: a missing directory fails construction with an
`InvalidDirectory`-class error, and an existing directory constructs
successfully. -/
theorem C5_init_witness :
    ((PyError.fileNotFound ("Directory does not exist: " ++ "/does/not/exist")).isInvalidDirectory = true ∧
      (fsNone.pathExists (fsNone.resolvePath "/does/not/exist")
        && fsNone.pathIsDir (fsNone.resolvePath "/does/not/exist")) = false) ∧
    (∃ st, ServerThread.init fsAll "/srv/www" 8000 "127.0.0.1" = Except.ok st) :=
  ⟨(C5_init_validates_directory fsNone "/does/not/exist" 8000 "127.0.0.1").2.1
      (PyError.fileNotFound ("Directory does not exist: " ++ "/does/not/exist")) rfl,
   (C5_init_validates_directory fsAll "/srv/www" 8000 "127.0.0.1").2.2 rfl⟩

/-- C6: `stop` on a thread that is not alive returns success at once
with no operations; on a running thread with a bound server it performs
the graceful `shutdown` of the accept loop first, then `server_close`,
then `join(timeout)`, and returns true exactly when the thread is no
longer alive after the join. -/
theorem C6_stop_semantics :
    (∀ (st : ServerThread) (t : Nat) (aj : Bool),
      st.stop t false aj = ((st, true), [])) ∧
    (∀ (st : ServerThread) (h : HTTPServerState) (t : Nat) (aj : Bool),
      st.httpd = some h →
        (st.stop t true aj).2[0]? = some (Op.logInfo "Shutting down server...") ∧
        (st.stop t true aj).2[1]? = some Op.shutdownServer ∧
        (st.stop t true aj).2[2]? = some Op.serverClose ∧
        (st.stop t true aj).2[3]? = some (Op.joinThread t) ∧
        (st.stop t true aj).1.2 = !aj) := by
  constructor
  · intro st t aj
    simp [ServerThread.stop]
  · intro st h t aj hh
    cases aj <;> simp [ServerThread.stop, hh]

/-- Witness for C6 at a concrete runtime: stopping a non-alive thread
succeeds with an empty trace, and stopping a running bound server emits
shutdown, close and join in order and reports success when the thread
finished within the timeout. -/
theorem C6_stop_witness :
    runningThread.stop 5 false true = ((runningThread, true), []) ∧
    ((runningThread.stop 5 true false).2[0]? = some (Op.logInfo "Shutting down server...") ∧
     (runningThread.stop 5 true false).2[1]? = some Op.shutdownServer ∧
     (runningThread.stop 5 true false).2[2]? = some Op.serverClose ∧
     (runningThread.stop 5 true false).2[3]? = some (Op.joinThread 5) ∧
     (runningThread.stop 5 true false).1.2 = !false) :=
  ⟨C6_stop_semantics.1 runningThread 5 true,
   C6_stop_semantics.2 runningThread { server_address := ("127.0.0.1", 8000) } 5 false rfl⟩

/-- C7: `url` is `None` before the server is bound; after a successful
`run`, it renders host `localhost` when the bind address is `127.0.0.1`
or `0.0.0.0` and the bind address verbatim otherwise, always with the
actually bound port (the OS-assigned one when the requested port is 0). -/
theorem C7_url_rendering :
    (∀ st : ServerThread, st.httpd = none → st.url = none) ∧
    (∀ (st : ServerThread) (osAssigned : Nat),
      st.bind_address = "127.0.0.1" ∨ st.bind_address = "0.0.0.0" →
        ((st.run (Except.ok ()) osAssigned).1).url
          = some ("http://localhost:"
              ++ toString (if st.port = 0 then osAssigned else st.port))) ∧
    (∀ (st : ServerThread) (osAssigned : Nat),
      ¬(st.bind_address = "127.0.0.1" ∨ st.bind_address = "0.0.0.0") →
        ((st.run (Except.ok ()) osAssigned).1).url
          = some ("http://" ++ st.bind_address ++ ":"
              ++ toString (if st.port = 0 then osAssigned else st.port))) := by
  refine ⟨?_, ?_, ?_⟩
  · intro st h
    simp [ServerThread.url, h]
  · intro st osAssigned hb
    simp only [ServerThread.run, ServerThread.url]
    rw [if_pos hb]
    rfl
  · intro st osAssigned hb
    simp only [ServerThread.run, ServerThread.url]
    rw [if_neg hb]

/-- Witness for C7 at concrete runtimes: an unbound thread has no URL, a
loopback bind renders `localhost`, and a LAN bind address is preserved
verbatim. -/
theorem C7_url_witness :
    sampleThread.url = none ∧
    ((sampleThread.run (Except.ok ()) 0).1).url
      = some ("http://localhost:"
          ++ toString (if sampleThread.port = 0 then 0 else sampleThread.port)) ∧
    ((sampleThreadLan.run (Except.ok ()) 0).1).url
      = some ("http://" ++ sampleThreadLan.bind_address ++ ":"
          ++ toString (if sampleThreadLan.port = 0 then 0 else sampleThreadLan.port)) :=
  ⟨C7_url_rendering.1 sampleThread rfl,
   C7_url_rendering.2.1 sampleThread 0 (Or.inl rfl),
   C7_url_rendering.2.2 sampleThreadLan 0 (by decide)⟩

/-- C8 counterexample: a start command with requested port 0 (ephemeral)
whose bind succeeds on OS-assigned port 54321 emits
`server_started("http://localhost:0")`, while the held runtime's
resolved URL is `http://localhost:54321` — the emitted notification
does not carry the runtime's resolved URL. -/
theorem C8_started_url_counterexample :
    (ServerWorker.runStartOp freshWorker fsAll "/srv/www" 0 (Except.ok ()) 54321 true).2
      = [Notification.server_started "http://localhost:0"] ∧
    ((ServerWorker.runStartOp freshWorker fsAll "/srv/www" 0 (Except.ok ()) 54321 true).1.server.map
        ServerThread.url)
      = some (some "http://localhost:54321") ∧
    (("http://localhost:0" : String) == "http://localhost:54321") = false := by
  decide

/-- C8 (amended): every start command emits exactly one notification,
never `server_stopped`; a `server_started` notification always carries
`http://localhost:` followed by the requested port, and whenever the
requested port is nonzero that string is exactly the held runtime's
resolved URL. -/
theorem C8_exactly_one_notification (w : ServerWorker) (fs : FileSystem)
    (d : String) (p : Nat) (bo : Except String Unit) (osA : Nat) (rc : Bool) :
    (ServerWorker.runStartOp w fs d p bo osA rc).2.length = 1 ∧
    ((ServerWorker.runStartOp w fs d p bo osA rc).2.contains
        Notification.server_stopped) = false ∧
    (∀ u, Notification.server_started u ∈ (ServerWorker.runStartOp w fs d p bo osA rc).2 →
      u = "http://localhost:" ++ toString p) ∧
    (p ≠ 0 →
      ∀ u, Notification.server_started u ∈ (ServerWorker.runStartOp w fs d p bo osA rc).2 →
        ∃ st, (ServerWorker.runStartOp w fs d p bo osA rc).1.server = some st ∧
          st.url = some u) := by
  cases hinit : ServerThread.init fs d p "127.0.0.1" with
  | error e =>
      simp [ServerWorker.runStartOp, hinit]
  | ok st0 =>
      have h0 := ServerThread.init_ok fs d p "127.0.0.1" st0 hinit
      subst h0
      cases rc with
      | false =>
          simp [ServerWorker.runStartOp, hinit, ServerThread.wait_for_startup]
      | true =>
          cases bo with
          | error m =>
              simp [ServerWorker.runStartOp, hinit, ServerThread.run,
                ServerThread.wait_for_startup]
          | ok u =>
              refine ⟨?_, ?_, ?_, ?_⟩
              · simp [ServerWorker.runStartOp, hinit, ServerThread.run,
                  ServerThread.wait_for_startup]
              · simp [ServerWorker.runStartOp, hinit, ServerThread.run,
                  ServerThread.wait_for_startup, List.contains]
              · intro u hu
                simp [ServerWorker.runStartOp, hinit, ServerThread.run,
                  ServerThread.wait_for_startup] at hu
                exact hu
              · intro hp u hu
                simp [ServerWorker.runStartOp, hinit, ServerThread.run,
                  ServerThread.wait_for_startup] at hu ⊢
                subst hu
                simp [ServerThread.url, if_neg hp]

/-- Witness for C8 (amended) at a concrete successful start with
requested port 8000: the held runtime's resolved URL equals the emitted
`http://localhost:8000`. -/
theorem C8_exactly_one_witness :
    ∃ st, (ServerWorker.runStartOp freshWorker fsAll "/srv/www" 8000
        (Except.ok ()) 0 true).1.server = some st ∧
      st.url = some "http://localhost:8000" :=
  (C8_exactly_one_notification freshWorker fsAll "/srv/www" 8000
      (Except.ok ()) 0 true).2.2.2 (by decide) "http://localhost:8000" (by decide)

/-- C9: every `run` trace (bind success or failure) sets SO_REUSEADDR
before its bind call — per CPython's `HTTPServer.allow_reuse_address` —
so under the operating-system rule a bind on a port still lingering from
an immediately preceding stop succeeds rather than failing with
"address in use". -/
theorem C9_reuseaddr_before_bind (st : ServerThread) (bo : Except String Unit)
    (osAssigned : Nat) (lingering : Bool) :
    reuseSetBeforeBind (st.run bo osAssigned).2 = true ∧
    bindSucceeds lingering (reuseSetBeforeBind (st.run bo osAssigned).2) = true := by
  cases bo <;> simp [ServerThread.run, reuseSetBeforeBind, bindSucceeds]

/-- C10: a stop command on a worker holding no runtime (never started,
or already stopped and released) emits exactly one `server_stopped`
notification and nothing else; and after any stop command the worker's
runtime is released, so a following stop command again emits exactly
`server_stopped`. -/
theorem C10_stop_on_idle_worker :
    (∀ (w : ServerWorker) (a aj : Bool), w.server = none →
      w.runStopOp a aj = (w, [Notification.server_stopped])) ∧
    (∀ (w : ServerWorker) (a aj a2 aj2 : Bool),
      (((w.runStopOp a aj).1).runStopOp a2 aj2).2 = [Notification.server_stopped]) := by
  constructor
  · intro w a aj h
    simp [ServerWorker.runStopOp, h]
  · intro w a aj a2 aj2
    cases hw : w.server <;> simp [ServerWorker.runStopOp, hw]

/-- Witness for C10: a fresh worker that was never started emits exactly
one `server_stopped` notification on a stop command. -/
theorem C10_stop_witness :
    freshWorker.runStopOp false false = (freshWorker, [Notification.server_stopped]) :=
  C10_stop_on_idle_worker.1 freshWorker false false rfl

end DivoomDND
